import Mathlib

/-!
Verification of the account session store (`src/features/user/userSlice.js`)
and the account API client (`src/services/userService.js`) of the
todo-app-react frontend.

The store holds `{ user, status, error }` where `status` ranges over the
source's string enum `'idle' | 'loading' | 'succeeded' | 'failed'`
(the spec's Idle/Pending/Succeeded/Failed, with Pending = `'loading'`).
Each of the seven async thunks contributes three reducers (pending,
fulfilled, rejected); the slice also has the synchronous reducers
`clearError` and `logout`.  The API client wraps each axios call in
`try/catch` and rethrows `error.response?.data || error`.
-/

/-- JavaScript runtime values, as far as this client code inspects them:
`null`, `undefined`, booleans, numbers, strings, and key-value objects. -/
inductive JsVal where
  | null : JsVal
  | undefined : JsVal
  | bool : Bool → JsVal
  | num : Int → JsVal
  | str : String → JsVal
  | obj : List (String × JsVal) → JsVal

/-- JavaScript truthiness: `null`, `undefined`, `false`, `0` and the empty
string are falsy; every object is truthy. -/
def JsVal.truthy : JsVal → Bool
  | .null => false
  | .undefined => false
  | .bool b => b
  | .num n => n != 0
  | .str s => s != ""
  | .obj _ => true

/-- Whether a value is exactly `null` (the slice's encoding of an empty
`user` or `error` field). -/
def JsVal.isNull : JsVal → Bool
  | .null => true
  | _ => false

/-- JavaScript `a || b`: returns `a` when `a` is truthy, otherwise `b`. -/
def jsOr (a b : JsVal) : JsVal := cond a.truthy a b

/-- The status enum of the slice: `'idle' | 'loading' | 'succeeded' |
'failed'`.  The spec's RequestStatus maps Idle to `idle`, Pending to
`loading`, Succeeded to `succeeded`, Failed to `failed`. -/
inductive RequestStatus where
  | idle : RequestStatus
  | loading : RequestStatus
  | succeeded : RequestStatus
  | failed : RequestStatus
deriving DecidableEq

/-- The seven async operations of `userSlice.js` / `userService.js`. -/
inductive Op where
  | register : Op
  | confirmUserRegistration : Op
  | authenticateUser : Op
  | initiatePasswordReset : Op
  | completePasswordReset : Op
  | getUserById : Op
  | updateUser : Op
deriving DecidableEq

/-- The slice state: `{ user, status, error }` (SessionState in the spec,
with Account = `user` and Error = `error`, empty encoded as `null`). -/
structure SessionState where
  user : JsVal
  status : RequestStatus
  error : JsVal

/-- The `initialState` of `userSlice.js`:
`{ user: null, status: 'idle', error: null }`. -/
def initialState : SessionState :=
  { user := JsVal.null, status := RequestStatus.idle, error := JsVal.null }

/-- Every `pending` reducer of the slice (identical for all seven thunks):
`state.status = 'loading'; state.error = null;`. -/
def pendingReducer (op : Op) (s : SessionState) : SessionState :=
  { s with status := RequestStatus.loading, error := JsVal.null }

/-- The `fulfilled` reducer of the slice for each thunk: sets
`state.status = 'succeeded'` and, for every operation except
`initiatePasswordReset`, also `state.user = action.payload`
(the `initiatePasswordReset.fulfilled` case body only sets the status). -/
def fulfilledReducer (op : Op) (payload : JsVal) (s : SessionState) :
    SessionState :=
  match op with
  | Op.initiatePasswordReset => { s with status := RequestStatus.succeeded }
  | _ => { s with status := RequestStatus.succeeded, user := payload }

/-- Every `rejected` reducer of the slice (identical for all seven thunks):
`state.status = 'failed'; state.error = action.payload || action.error.message;`.
Here `payload` is the value passed to `rejectWithValue` (the value thrown by
the service call) and `errMessage` is `action.error.message`. -/
def rejectedReducer (op : Op) (payload : JsVal) (errMessage : String)
    (s : SessionState) : SessionState :=
  { s with status := RequestStatus.failed,
           error := jsOr payload (JsVal.str errMessage) }

/-- The synchronous `clearError` reducer: `state.error = null;`. -/
def clearErrorReducer (s : SessionState) : SessionState :=
  { s with error := JsVal.null }

/-- The synchronous `logout` reducer:
`state.user = null; state.status = 'idle'; state.error = null;`. -/
def logoutReducer (s : SessionState) : SessionState :=
  { user := JsVal.null, status := RequestStatus.idle, error := JsVal.null }

/-- One dispatched action handled by the slice: a per-operation pending,
fulfilled or rejected action, or one of the two synchronous actions. -/
inductive SliceAction where
  | pending : Op → SliceAction
  | fulfilled : Op → JsVal → SliceAction
  | rejected : Op → JsVal → String → SliceAction
  | clearError : SliceAction
  | logout : SliceAction

/-- The slice reducer: dispatch one action against the state. -/
def stepAction : SliceAction → SessionState → SessionState
  | SliceAction.pending op, s => pendingReducer op s
  | SliceAction.fulfilled op p, s => fulfilledReducer op p s
  | SliceAction.rejected op p m, s => rejectedReducer op p m s
  | SliceAction.clearError, s => clearErrorReducer s
  | SliceAction.logout, s => logoutReducer s

/-- States reachable from `initialState` by dispatching any sequence of
actions in any order. -/
inductive Reachable : SessionState → Prop where
  | init : Reachable initialState
  | step (a : SliceAction) {s : SessionState} :
      Reachable s → Reachable (stepAction a s)

/-- The outcome of one axios request as the service layer observes it:
a successful response with a body, an error response carrying a body
(`error.response.data`) alongside the raw axios error object, or a
network failure with no response at all. -/
inductive HttpOutcome where
  | success : JsVal → HttpOutcome
  | httpError : JsVal → JsVal → HttpOutcome
  | networkError : JsVal → HttpOutcome

/-- The common shape of all seven functions of `userService.js`: on success
`return response.data`; on failure `throw error.response?.data || error`
(when no response was received, `error.response?.data` is `undefined`). -/
def serviceCall (op : Op) (o : HttpOutcome) : Except JsVal JsVal :=
  match o with
  | HttpOutcome.success body => Except.ok body
  | HttpOutcome.httpError body errObj => Except.error (jsOr body errObj)
  | HttpOutcome.networkError errObj =>
      Except.error (jsOr JsVal.undefined errObj)

/-- The 401 body `{message: "invalid credentials"}` used by the spec's
authenticate example. -/
def invalidCredBody : JsVal :=
  JsVal.obj [("message", JsVal.str "invalid credentials")]

/-- A sample account payload used to instantiate quantified theorems. -/
def samplePayload : JsVal :=
  JsVal.obj [("id", JsVal.num 1), ("email", JsVal.str "a@b.com"),
             ("name", JsVal.str "Ada")]

/-- A reachable state obtained by a rejected authenticate outcome followed
by a fulfilled authenticate outcome with no pending action in between:
its status is `succeeded` while its error is still the 401 body. -/
def badState : SessionState :=
  stepAction (SliceAction.fulfilled Op.authenticateUser samplePayload)
    (stepAction
      (SliceAction.rejected Op.authenticateUser invalidCredBody "Rejected")
      initialState)

/-- Every fulfilled reducer sets the status to `succeeded`. -/
theorem fulfilledReducer_status (op : Op) (p : JsVal) (s : SessionState) :
    (fulfilledReducer op p s).status = RequestStatus.succeeded := by
  cases op <;> rfl

/-- Claim C1 (amended): in every reachable SessionState, the Error field is
non-empty only when RequestStatus is Failed or Succeeded.  (The fulfilled
reducers do not touch the error field, so a success outcome applied after a
failure with no intervening pending action yields a Succeeded state whose
stale Error is still non-empty; only pending, clearError and logout clear
the error.) -/
theorem c1_reachable_error_only_failed_or_succeeded (s : SessionState)
    (hs : Reachable s) :
    s.error.isNull = false →
      s.status = RequestStatus.failed ∨ s.status = RequestStatus.succeeded := by
  induction hs with
  | init => intro he; exact absurd he (by simp [initialState, JsVal.isNull])
  | step a h ih =>
    intro he
    cases a with
    | pending op =>
      exact absurd he (by simp [stepAction, pendingReducer, JsVal.isNull])
    | fulfilled op p => exact Or.inr (fulfilledReducer_status op p _)
    | rejected op p m => exact Or.inl rfl
    | clearError =>
      exact absurd he (by simp [stepAction, clearErrorReducer, JsVal.isNull])
    | logout =>
      exact absurd he (by simp [stepAction, logoutReducer, JsVal.isNull])

/-- Claim C1, witness for the amended theorem: applied to the concrete
reachable state `badState`, whose error is non-empty. -/
theorem c1_witness :
    badState.status = RequestStatus.failed ∨
      badState.status = RequestStatus.succeeded :=
  c1_reachable_error_only_failed_or_succeeded badState
    (Reachable.step (SliceAction.fulfilled Op.authenticateUser samplePayload)
      (Reachable.step
        (SliceAction.rejected Op.authenticateUser invalidCredBody "Rejected")
        Reachable.init))
    rfl

/-- Claim C1, counterexample to the claim as stated: `badState` is reachable
(rejected authenticate, then fulfilled authenticate with no pending action in
between), its error is non-empty, yet its status is not Failed. -/
theorem c1_counterexample :
    Reachable badState ∧ badState.error.isNull = false ∧
      badState.status ≠ RequestStatus.failed :=
  ⟨Reachable.step (SliceAction.fulfilled Op.authenticateUser samplePayload)
      (Reachable.step
        (SliceAction.rejected Op.authenticateUser invalidCredBody "Rejected")
        Reachable.init),
    rfl, by decide⟩

/-- Claim C2: for every operation, the rejected reducer sets the status to
failed, leaves the account untouched, and sets the error to
`action.payload || action.error.message` — the payload when it is truthy,
the generic message otherwise; in particular a failed authenticate carrying
the 401 body `invalidCredBody` stores exactly that body, which is also
exactly what the service layer throws for such a response. -/
theorem c2_rejected_sets_failed_and_normalized_error (op : Op) (p : JsVal)
    (m : String) (s : SessionState) (e : JsVal) :
    (rejectedReducer op p m s).status = RequestStatus.failed ∧
    (rejectedReducer op p m s).user = s.user ∧
    (rejectedReducer op p m s).error = jsOr p (JsVal.str m) ∧
    (p.truthy = false → (rejectedReducer op p m s).error = JsVal.str m) ∧
    serviceCall Op.authenticateUser (HttpOutcome.httpError invalidCredBody e) =
      Except.error invalidCredBody ∧
    (rejectedReducer Op.authenticateUser invalidCredBody m s).error =
      invalidCredBody := by
  refine ⟨rfl, rfl, rfl, ?_, rfl, rfl⟩
  intro h
  simp [rejectedReducer, jsOr, h]

/-- Claim C2, witness: a rejected outcome with a null payload falls back to
the generic message. -/
theorem c2_witness :
    (rejectedReducer Op.authenticateUser JsVal.null "Rejected"
        initialState).error = JsVal.str "Rejected" :=
  (c2_rejected_sets_failed_and_normalized_error Op.authenticateUser JsVal.null
      "Rejected" initialState JsVal.null).2.2.2.1 rfl

/-- Claim C3: for each of the six account-replacing operations (every
operation except initiatePasswordReset), the fulfilled reducer sets the
status to succeeded and replaces the whole account snapshot with the
payload, leaving the error as it was. -/
theorem c3_fulfilled_replaces_account (op : Op)
    (h : op ≠ Op.initiatePasswordReset) (p : JsVal) (s : SessionState) :
    fulfilledReducer op p s =
      { user := p, status := RequestStatus.succeeded, error := s.error } := by
  cases op <;> first | rfl | exact absurd rfl h

/-- Claim C3, witness: a fulfilled authenticate from the initial state
stores the sample payload. -/
theorem c3_witness :
    fulfilledReducer Op.authenticateUser samplePayload initialState =
      { user := samplePayload, status := RequestStatus.succeeded,
        error := JsVal.null } :=
  c3_fulfilled_replaces_account Op.authenticateUser (by decide) samplePayload
    initialState

/-- Claim C4: for every operation and every starting state, the pending
reducer sets the status to loading (the spec's Pending) and clears the
error, leaving the account unchanged. -/
theorem c4_pending_sets_loading_clears_error (op : Op) (s : SessionState) :
    (pendingReducer op s).status = RequestStatus.loading ∧
    (pendingReducer op s).error = JsVal.null ∧
    (pendingReducer op s).user = s.user :=
  ⟨rfl, rfl, rfl⟩

/-- Claim C5: every service call returns the response body unchanged on
success; on an error response carrying a structured (object) body it throws
that body; on a network failure (no response) it throws the raw error; and
the outcome is always observably success-or-failure. -/
theorem c5_service_outcome_contract (op : Op) (b e : JsVal)
    (fields : List (String × JsVal)) :
    serviceCall op (HttpOutcome.success b) = Except.ok b ∧
    serviceCall op (HttpOutcome.httpError (JsVal.obj fields) e) =
      Except.error (JsVal.obj fields) ∧
    serviceCall op (HttpOutcome.networkError e) = Except.error e ∧
    ∀ o : HttpOutcome, (∃ v, serviceCall op o = Except.ok v) ∨
      ∃ v, serviceCall op o = Except.error v := by
  refine ⟨rfl, rfl, rfl, ?_⟩
  intro o
  cases o with
  | success body => exact Or.inl ⟨body, rfl⟩
  | httpError body errObj => exact Or.inr ⟨jsOr body errObj, rfl⟩
  | networkError errObj => exact Or.inr ⟨jsOr JsVal.undefined errObj, rfl⟩

/-- Claim C6 (amended): clearError sets the error to empty and leaves the
status and account unchanged; in particular, when the error is already
empty, clearError leaves the state entirely unchanged.  (The condition
"RequestStatus is not Failed" does not guarantee an empty error: a reachable
Succeeded state can still carry a stale error.) -/
theorem c6_clearError_only_clears_error (s : SessionState) :
    clearErrorReducer s = { s with error := JsVal.null } ∧
    (s.error = JsVal.null → clearErrorReducer s = s) := by
  refine ⟨rfl, ?_⟩
  intro h
  cases s with
  | mk u st er => cases h; rfl

/-- Claim C6, witness: clearError on the initial state (whose error is
already empty) is the identity. -/
theorem c6_witness : clearErrorReducer initialState = initialState :=
  (c6_clearError_only_clears_error initialState).2 rfl

/-- Claim C6, counterexample to the claim as stated: `badState` is
reachable, its status is not Failed, and yet clearError changes it (its
error is a stale non-empty value). -/
theorem c6_counterexample :
    Reachable badState ∧ badState.status ≠ RequestStatus.failed ∧
      clearErrorReducer badState ≠ badState :=
  ⟨Reachable.step (SliceAction.fulfilled Op.authenticateUser samplePayload)
      (Reachable.step
        (SliceAction.rejected Op.authenticateUser invalidCredBody "Rejected")
        Reachable.init),
    by decide,
    fun h =>
      absurd (congrArg (fun t => JsVal.isNull t.error) h) (by decide)⟩

/-- Claim C7: the fulfilled reducer of initiatePasswordReset only sets the
status to succeeded; the account and the error are left unchanged (the
success payload is not stored). -/
theorem c7_initiateReset_fulfilled_keeps_account (p : JsVal)
    (s : SessionState) :
    fulfilledReducer Op.initiatePasswordReset p s =
      { s with status := RequestStatus.succeeded } :=
  rfl

/-- Claim C8: logout yields exactly the initial empty state, regardless of
the prior state. -/
theorem c8_logout_resets_to_initial (s : SessionState) :
    logoutReducer s = initialState :=
  rfl

/-- Claim C9: for every operation, the fulfilled reducer leaves the error
field exactly as it was; consequently a success outcome applied directly
after a rejected outcome preserves the normalized error the rejection
stored. -/
theorem c9_fulfilled_preserves_error (op : Op) (p : JsVal)
    (s : SessionState) :
    (fulfilledReducer op p s).error = s.error ∧
    ∀ (op2 : Op) (q : JsVal) (m : String),
      (fulfilledReducer op p (rejectedReducer op2 q m s)).error =
        jsOr q (JsVal.str m) := by
  cases op <;> exact ⟨rfl, fun _ _ _ => rfl⟩

/-- Claim C10: error normalization is decided by truthiness, not presence:
a falsy error body (empty string, 0, null) makes the service throw the raw
axios error instead of the body, and a falsy rejected payload makes the
store fall back to the generic message. -/
theorem c10_normalization_by_truthiness (op : Op) (body e p : JsVal)
    (m : String) (s : SessionState) :
    (body.truthy = false →
      serviceCall op (HttpOutcome.httpError body e) = Except.error e) ∧
    (p.truthy = false →
      (rejectedReducer op p m s).error = JsVal.str m) ∧
    serviceCall op (HttpOutcome.httpError (JsVal.str "") e) =
      Except.error e ∧
    serviceCall op (HttpOutcome.httpError (JsVal.num 0) e) =
      Except.error e ∧
    serviceCall op (HttpOutcome.httpError JsVal.null e) = Except.error e ∧
    (rejectedReducer op (JsVal.num 0) m s).error = JsVal.str m := by
  refine ⟨?_, ?_, ?_, ?_, rfl, ?_⟩
  · intro h; simp [serviceCall, jsOr, h]
  · intro h; simp [rejectedReducer, jsOr, h]
  · simp [serviceCall, jsOr, JsVal.truthy]
  · simp [serviceCall, jsOr, JsVal.truthy]
  · simp [rejectedReducer, jsOr, JsVal.truthy]

/-- Claim C10, witness: an error response whose body is the empty string
makes the register service call throw the raw error object. -/
theorem c10_witness :
    serviceCall Op.register
        (HttpOutcome.httpError (JsVal.str "") (JsVal.str "raw axios error")) =
      Except.error (JsVal.str "raw axios error") :=
  (c10_normalization_by_truthiness Op.register (JsVal.str "")
      (JsVal.str "raw axios error") JsVal.null "Rejected" initialState).1
    (by decide)
